import Mathlib

/-!
Shallow embedding of the generic pagination / dynamic-filter query layer of
the `go_structure` repository (package `pkg/helpers/pagination`), together
with proofs of the specification claims about it.

Modelling conventions:
* Go `int` / `int64` are modelled as `Int` (no arithmetic in the verified
  paths overflows 64 bits on the inputs the claims quantify over).
* Go `interface{}` filter values are modelled as `Option String`
  (`none` models the Go `nil` interface; the payload is opaque to the code
  under study, so a `String` payload is fully general for it).
* A `*gorm.DB` query object is modelled as an explicit `Query` record that
  accumulates the clauses the code attaches to it (`Where`, `Or`, `Order`,
  `Offset`, `Limit`, `Preload`, `Raw`, `Table`).
* `strings.ToUpper` / `strings.EqualFold` are modelled on their ASCII
  fragment (`Char.toUpper` / `Char.toLower`), which covers every operator
  and logic spelling the code compares against.
* `math.Ceil(float64(a)/float64(b))` is modelled as the exact rational
  ceiling of `a / b`; this is exact for the magnitudes the claims range
  over (the float computation only diverges beyond 2^53).
-/

/-- A Go `interface{}` argument bound into a query clause; `none` is `nil`. -/
abbrev GoValue := Option String

/-- One WHERE/OR clause attached to a gorm query: `isOr = false` models
`query.Where(cond, args...)`, `isOr = true` models `query.Or(cond, args...)`. -/
structure WhereClause where
  isOr : Bool
  cond : String
  args : List GoValue
deriving DecidableEq, Repr

/-- Explicit model of the state a `*gorm.DB` query object accumulates under
the operations the pagination layer uses. -/
structure Query where
  table : String
  whereClauses : List WhereClause
  orderClauses : List String
  offsetVal : Option Int
  limitVal : Option Int
  preloads : List String
  rawSQL : Option String
deriving DecidableEq, Repr

/-- The zero-valued `*gorm.DB` handed to the layer by callers. -/
def Query.empty : Query := ⟨"", [], [], none, none, [], none⟩

/-- `db.Table(name)`: scope the query to a table. -/
def Query.tableQ (q : Query) (name : String) : Query := { q with table := name }

/-- `query.Where(cond, args...)`: append an AND-combined predicate. -/
def Query.whereAnd (q : Query) (cond : String) (args : List GoValue) : Query :=
  { q with whereClauses := q.whereClauses ++ [⟨false, cond, args⟩] }

/-- `query.Or(cond, args...)`: append an OR-combined predicate. -/
def Query.whereOr (q : Query) (cond : String) (args : List GoValue) : Query :=
  { q with whereClauses := q.whereClauses ++ [⟨true, cond, args⟩] }

/-- `query.order(expr)`: append an ORDER BY expression. -/
def Query.orderQ (q : Query) (expr : String) : Query :=
  { q with orderClauses := q.orderClauses ++ [expr] }

/-- `query.Offset(n)`. -/
def Query.offsetQ (q : Query) (n : Int) : Query := { q with offsetVal := some n }

/-- `query.Limit(n)`. -/
def Query.limitQ (q : Query) (n : Int) : Query := { q with limitVal := some n }

/-- `query.Preload(relation)`. -/
def Query.preloadQ (q : Query) (relation : String) : Query :=
  { q with preloads := q.preloads ++ [relation] }

/-- `query.Raw(sql)`: replace the generated statement with a raw one. -/
def Query.rawQ (q : Query) (sql : String) : Query := { q with rawSQL := some sql }

/-- `type PaginationRequest struct` (pagination.go). -/
structure PaginationRequest where
  page : Int
  perPage : Int
  search : String
  sort : String
  order : String
deriving DecidableEq, Repr

/-- `type PaginationResponse struct` (pagination.go). -/
structure PaginationResponse where
  page : Int
  perPage : Int
  maxPage : Int
  total : Int
deriving DecidableEq, Repr

/-- `func (p *PaginationRequest) Validate()` (pagination.go:47-63), as a pure
state transformer on the request. -/
def PaginationRequest.Validate (p : PaginationRequest) : PaginationRequest :=
  let p := if p.page ≤ 0 then { p with page := 1 } else p
  let p := if p.perPage ≤ 0 then { p with perPage := 10 } else p
  let p := if p.order = "" then { p with order := "asc" } else p
  if p.order ≠ "asc" ∧ p.order ≠ "desc" then { p with order := "asc" } else p

/-- `func (p *PaginationRequest) GetOffset() int` (pagination.go:33-38): the
pointer receiver first coerces `Page`, then returns `(Page-1)*PerPage`; the
result pairs the mutated request with the returned value. -/
def PaginationRequest.GetOffset (p : PaginationRequest) : PaginationRequest × Int :=
  let p := if p.page ≤ 0 then { p with page := 1 } else p
  (p, (p.page - 1) * p.perPage)

/-- `func (p *PaginationRequest) GetLimit() int` (pagination.go:40-45). -/
def PaginationRequest.GetLimit (p : PaginationRequest) : PaginationRequest × Int :=
  let p := if p.perPage ≤ 0 then { p with perPage := 10 } else p
  (p, p.perPage)

/-- Go `strconv.Atoi`: optional sign, one or more ASCII digits, and the
value must fit in `int64` (out-of-range input returns an error, modelled as
`none`). -/
def atoi (s : String) : Option Int :=
  match s.data with
  | [] => none
  | c :: rest =>
    let signed : Int × List Char :=
      if c = '-' then (-1, rest) else if c = '+' then (1, rest) else (1, s.data)
    match signed with
    | (sign, digits) =>
      if digits = [] then none
      else if digits.all Char.isDigit then
        let n : Nat := digits.foldl (fun acc d => acc * 10 + (d.toNat - 48)) 0
        let v : Int := sign * (n : Int)
        if v < -(2 ^ 63) ∨ 2 ^ 63 - 1 < v then none else some v
      else none

/-- The raw query-string parameters `BindPagination` reads from the request
context; a missing parameter is the empty string, exactly as `ctx.Query`
reports it. -/
structure RawQuery where
  page : String
  per_page : String
  search : String
  sort : String
  order : String
deriving DecidableEq, Repr

/-- `func BindPagination(ctx *gin.Context) PaginationRequest`
(pagination.go:65-96). -/
def BindPagination (raw : RawQuery) : PaginationRequest :=
  let pagination : PaginationRequest := ⟨1, 10, "", "", "asc"⟩
  let pagination :=
    if raw.page ≠ "" then
      match atoi raw.page with
      | some page => if page > 0 then { pagination with page := page } else pagination
      | none => pagination
    else pagination
  let pagination :=
    if raw.per_page ≠ "" then
      match atoi raw.per_page with
      | some perPage =>
        if perPage > 0 ∧ perPage ≤ 100 then { pagination with perPage := perPage }
        else pagination
      | none => pagination
    else pagination
  let pagination := { pagination with search := raw.search }
  let pagination := { pagination with sort := raw.sort }
  let pagination :=
    if raw.order = "desc" ∨ raw.order = "asc" then { pagination with order := raw.order }
    else pagination
  pagination.Validate

/-- `int64(math.Ceil(float64(t) / float64(p)))`, modelled as the exact
rational ceiling (exact below 2^53; the `p = 0` float behaviour is
implementation-defined in Go and outside every claim's range). -/
def goCeilDiv (t p : Int) : Int := if p = 0 then 0 else -((-t).fdiv p)

/-- `func CalculatePagination(pagination PaginationRequest, totalCount int64)
PaginationResponse` (pagination.go:98-111). -/
def CalculatePagination (pagination : PaginationRequest) (totalCount : Int) :
    PaginationResponse :=
  let maxPage := goCeilDiv totalCount pagination.perPage
  let maxPage := if maxPage = 0 then 1 else maxPage
  { page := pagination.page
    perPage := pagination.perPage
    maxPage := maxPage
    total := totalCount }

/-- Go `strings.ToUpper` on its ASCII fragment, written over the character
list so that it evaluates inside the kernel. -/
def goToUpper (s : String) : String := String.mk (s.data.map Char.toUpper)

/-- Go `strings.ToLower` on its ASCII fragment. -/
def goToLower (s : String) : String := String.mk (s.data.map Char.toLower)

/-- Go `strings.Split` for a one-character separator (the only form the
code uses), over the character list. `Split("", sep)` is `[""]`, as in Go. -/
def splitOnChar (sep : Char) : List Char → List (List Char)
  | [] => [[]]
  | c :: rest =>
    match splitOnChar sep rest with
    | [] => if c = sep then [[], []] else [[c]]
    | h :: t => if c = sep then [] :: h :: t else (c :: h) :: t

/-- Go `strings.Split(s, sep)` for a one-character separator. -/
def goSplit (s : String) (sep : Char) : List String :=
  (splitOnChar sep s.data).map String.mk

/-- Go `strings.HasPrefix`. -/
def goHasPrefix (s pre : String) : Bool := pre.data.isPrefixOf s.data

/-- `type FilterCondition struct` (pagination_query.go:96-101); `Value` is an
`interface{}` whose `nil` is `none`. -/
structure FilterCondition where
  field : String
  operator : String
  value : GoValue
  logic : String
deriving DecidableEq, Repr

/-- One field of the model struct a `DynamicFilter` validates against:
its Go name and its `gorm` / `json` struct tags. -/
structure ModelField where
  name : String
  gormTag : String
  jsonTag : String
deriving DecidableEq, Repr

/-- `type DynamicFilter struct` (pagination_query.go:104-111); the reflected
`Model interface{}` is modelled as the list of its declared fields
(`none` models a `nil` model). -/
structure DynamicFilter where
  filters : List FilterCondition
  tableName : String
  model : Option (List ModelField)
  searchFields : List String
  defaultSort : String
deriving DecidableEq, Repr

/-- `func (d *DynamicFilter) extractColumnName(gormTag string) string`
(pagination_query.go:170-178): first `column:`-tagged part of the tag. -/
def DynamicFilter.extractColumnName (gormTag : String) : String :=
  match (goSplit gormTag ';').find? (fun part => goHasPrefix part "column:") with
  | some part => String.mk (part.data.drop 7)
  | none => ""

/-- `func (d *DynamicFilter) extractJSONName(jsonTag string) string`
(pagination_query.go:180-186). -/
def DynamicFilter.extractJSONName (jsonTag : String) : String :=
  let parts := goSplit jsonTag ','
  match parts with
  | [] => ""
  | p :: _ => if p ≠ "-" then p else ""

/-- `strings.EqualFold` on its ASCII fragment. -/
def goEqualFold (s t : String) : Bool := goToLower s = goToLower t

/-- `func (d *DynamicFilter) isValidField(fieldName string) bool`
(pagination_query.go:143-168): a `nil` model rejects everything; otherwise
the name must match a declared field by exact name, case-insensitive name,
`gorm` column tag, or `json` name. -/
def DynamicFilter.isValidField (d : DynamicFilter) (fieldName : String) : Bool :=
  match d.model with
  | none => false
  | some fields =>
    fields.any (fun f =>
      f.name = fieldName ∨ goEqualFold f.name fieldName ∨
      DynamicFilter.extractColumnName f.gormTag = fieldName ∨
      DynamicFilter.extractJSONName f.jsonTag = fieldName)

/-- `func (d *DynamicFilter) buildCondition(filter FilterCondition) string`
(pagination_query.go:188-217): `switch strings.ToUpper(filter.Operator)`. -/
def DynamicFilter.buildCondition (filter : FilterCondition) : String :=
  let op := goToUpper filter.operator
  if op = "=" ∨ op = "EQ" ∨ op = "EQUALS" then filter.field ++ " = ?"
  else if op = "!=" ∨ op = "NE" ∨ op = "NOT_EQUALS" then filter.field ++ " != ?"
  else if op = ">" ∨ op = "GT" ∨ op = "GREATER_THAN" then filter.field ++ " > ?"
  else if op = ">=" ∨ op = "GTE" ∨ op = "GREATER_THAN_EQUALS" then filter.field ++ " >= ?"
  else if op = "<" ∨ op = "LT" ∨ op = "LESS_THAN" then filter.field ++ " < ?"
  else if op = "<=" ∨ op = "LTE" ∨ op = "LESS_THAN_EQUALS" then filter.field ++ " <= ?"
  else if op = "LIKE" ∨ op = "CONTAINS" then filter.field ++ " LIKE ?"
  else if op = "ILIKE" ∨ op = "ICONTAINS" then filter.field ++ " ILIKE ?"
  else if op = "IN" then filter.field ++ " IN ?"
  else if op = "NOT_IN" then filter.field ++ " NOT IN ?"
  else if op = "IS_NULL" then filter.field ++ " IS NULL"
  else if op = "IS_NOT_NULL" then filter.field ++ " IS NOT NULL"
  else filter.field ++ " = ?"

/-- Loop body of `func (d *DynamicFilter) ApplyFilters(query *gorm.DB)
*gorm.DB` (pagination_query.go:113-141), carrying the running index `i` of
`for i, filter := range d.Filters`. -/
def DynamicFilter.applyFiltersFrom (d : DynamicFilter) (i : Nat)
    (fs : List FilterCondition) (query : Query) : Query :=
  match fs with
  | [] => query
  | filter :: rest =>
    let query :=
      if filter.field = "" ∨ filter.value = none then query
      else if ¬ d.isValidField filter.field then query
      else if DynamicFilter.buildCondition filter = "" then query
      else if i = 0 then query.whereAnd (DynamicFilter.buildCondition filter) [filter.value]
      else if goToUpper filter.logic = "OR" then
        query.whereOr (DynamicFilter.buildCondition filter) [filter.value]
      else query.whereAnd (DynamicFilter.buildCondition filter) [filter.value]
    DynamicFilter.applyFiltersFrom d (i + 1) rest query

/-- `func (d *DynamicFilter) ApplyFilters(query *gorm.DB) *gorm.DB`
(pagination_query.go:113-141). -/
def DynamicFilter.ApplyFilters (d : DynamicFilter) (query : Query) : Query :=
  d.applyFiltersFrom 0 d.filters query

/-- `type DatabaseDialect string` (pagination.go:201). -/
abbrev DatabaseDialect := String

/-- `MySQL DatabaseDialect = "mysql"`. -/
def MySQL : DatabaseDialect := "mysql"

/-- `PostgreSQL DatabaseDialect = "postgresql"`. -/
def PostgreSQL : DatabaseDialect := "postgresql"

/-- `SQLite DatabaseDialect = "sqlite"`. -/
def SQLite : DatabaseDialect := "sqlite"

/-- `SQLServer DatabaseDialect = "sqlserver"`. -/
def SQLServer : DatabaseDialect := "sqlserver"

/-- `func getSearchOperator(dialect DatabaseDialect) string`
(pagination.go:189-198): the `switch` over the dialect. -/
def getSearchOperator (dialect : DatabaseDialect) : String :=
  if dialect = PostgreSQL then "ILIKE"
  else if dialect = MySQL ∨ dialect = SQLite ∨ dialect = SQLServer then "LIKE"
  else "LIKE"

/-- `func applyAutoSearch(query *gorm.DB, searchTerm string, searchFields
[]string, dialect DatabaseDialect) *gorm.DB` (pagination.go:165-187). -/
def applyAutoSearch (query : Query) (searchTerm : String)
    (searchFields : List String) (dialect : DatabaseDialect) : Query :=
  if searchFields.length = 0 ∨ searchTerm = "" then query
  else
    let searchPattern := "%" ++ searchTerm ++ "%"
    let op := getSearchOperator dialect
    match searchFields with
    | [f] => query.whereAnd (f ++ " " ++ op ++ " ?") [some searchPattern]
    | _ =>
      let conditions := searchFields.map (fun f => f ++ " " ++ op ++ " ?")
      let args := searchFields.map (fun _ => some searchPattern)
      query.whereAnd ("(" ++ String.intercalate " OR " conditions ++ ")") args

/-- Character allow-list shared by `isValidSortField` and `isValidInclude`. -/
def isAllowedIdentChar (c : Char) : Bool :=
  ('a' ≤ c ∧ c ≤ 'z') ∨ ('A' ≤ c ∧ c ≤ 'Z') ∨ ('0' ≤ c ∧ c ≤ '9') ∨ c = '_' ∨ c = '.'

/-- `func isValidSortField(field string) bool` (pagination.go:344-355):
every rune must pass the allow-list and the field must be non-empty. -/
def isValidSortField (field : String) : Bool :=
  field.data.all isAllowedIdentChar ∧ field.data.length > 0

/-- `func isValidInclude(include string) bool` (pagination.go:358-369):
same body as `isValidSortField`. -/
def isValidInclude (inc : String) : Bool :=
  inc.data.all isAllowedIdentChar ∧ inc.data.length > 0

/-- The `QueryBuilder` capability surface a caller hands to the executor
(pagination.go:135-140), together with the optional
`AllowedIncludesProvider` capability (pagination.go:149-151): `none` models
a builder that does not implement it, `some allowed` one whose
`GetAllowedIncludes()` map holds `true` exactly for the listed names. -/
structure GoQueryBuilder where
  tableName : String
  applyFilters : Query → Query
  defaultSort : String
  searchFields : List String
  allowedIncludes : Option (List String)

/-- `func validateIncludes(builder interface{}, includes []string) []string`
(pagination.go:372-392). -/
def validateIncludes (builder : GoQueryBuilder) (includes : List String) :
    List String :=
  match builder.allowedIncludes with
  | some allowed => includes.filter (fun inc => isValidInclude inc ∧ allowed.contains inc)
  | none => includes.filter (fun inc => isValidInclude inc)

/-- `type PaginatedQueryOptions struct` (pagination.go:211-215). -/
structure PaginatedQueryOptions where
  dialect : DatabaseDialect
  enableSoftDelete : Bool
  customCountQuery : String

/-- Execution oracle for the two database round trips the executor makes:
what the backing store answers for a given built query. -/
structure Backend (T : Type) where
  count : Query → Except String Int
  find : Query → Except String (List T)

/-- The two database phases of `PaginatedQueryWithOptions`, recorded in the
order they are issued. -/
inductive Phase where
  | count : Phase
  | fetch : Phase
deriving DecidableEq, Repr

/-- Count query built by `PaginatedQueryWithOptions` (pagination.go:281-298):
table scope, builder filters, optional soft-delete clause, optional raw
custom count statement. -/
def buildCountQuery (db : Query) (builder : GoQueryBuilder)
    (options : PaginatedQueryOptions) : Query :=
  let countQuery := builder.applyFilters (db.tableQ builder.tableName)
  let countQuery :=
    if options.enableSoftDelete then countQuery.whereAnd "deleted_at IS NULL" []
    else countQuery
  if options.customCountQuery ≠ "" then countQuery.rawQ options.customCountQuery
  else countQuery

/-- Data query built by `PaginatedQueryWithOptions` (pagination.go:300-333):
table scope, builder filters, auto search, optional soft-delete clause,
sorting with fallback to the default sort, pagination window, validated
preloads. -/
def buildDataQuery (db : Query) (builder : GoQueryBuilder)
    (pagination : PaginationRequest) (includes : List String)
    (options : PaginatedQueryOptions) : Query :=
  let dataQuery := builder.applyFilters (db.tableQ builder.tableName)
  let dataQuery :=
    if pagination.search ≠ "" then
      applyAutoSearch dataQuery pagination.search builder.searchFields options.dialect
    else dataQuery
  let dataQuery :=
    if options.enableSoftDelete then dataQuery.whereAnd "deleted_at IS NULL" []
    else dataQuery
  let dataQuery :=
    if pagination.sort ≠ "" then
      if isValidSortField pagination.sort then
        dataQuery.orderQ (pagination.sort ++ " " ++ pagination.order)
      else dataQuery.orderQ builder.defaultSort
    else dataQuery.orderQ builder.defaultSort
  let dataQuery := (dataQuery.offsetQ (pagination.GetOffset).2).limitQ (pagination.GetLimit).2
  (validateIncludes builder includes).foldl (fun q inc => q.preloadQ inc) dataQuery

/-- `func PaginatedQueryWithOptions[T any](db *gorm.DB, builder QueryBuilder,
pagination PaginationRequest, includes []string, options
PaginatedQueryOptions) ([]T, int64, error)` (pagination.go:270-341), run
against an execution oracle. The value is the Go triple (`nil` slice and
zero count on failure, with the wrapped error message as `some`), paired
with the trace of database phases actually issued. -/
def PaginatedQueryWithOptions (T : Type) (backend : Backend T) (db : Query)
    (builder : GoQueryBuilder) (pagination : PaginationRequest)
    (includes : List String) (options : PaginatedQueryOptions) :
    (List T × Int × Option String) × List Phase :=
  match backend.count (buildCountQuery db builder options) with
  | .error e => (([], 0, some ("failed to count records: " ++ e)), [Phase.count])
  | .ok totalCount =>
    match backend.find (buildDataQuery db builder pagination includes options) with
    | .error e =>
      (([], 0, some ("failed to fetch records: " ++ e)), [Phase.count, Phase.fetch])
    | .ok result => ((result, totalCount, none), [Phase.count, Phase.fetch])

/-- Clause that the filter at index `i` of `DynamicFilter.Filters`
contributes to the query, `none` when the loop skips it: this re-expresses
the imperative loop of `ApplyFilters` declaratively, and records that the
combinator is `Or` exactly for a non-zero index whose `Logic` upper-cases
to `OR`. -/
def contributedClause (d : DynamicFilter) (i : Nat) (f : FilterCondition) :
    Option WhereClause :=
  if f.field = "" ∨ f.value = none then none
  else if ¬ d.isValidField f.field then none
  else if DynamicFilter.buildCondition f = "" then none
  else
    some ⟨if i = 0 then false else decide (goToUpper f.logic = "OR"),
      DynamicFilter.buildCondition f, [f.value]⟩

/-- Predicate text the spec describes for auto search: the term matched
against every declared search field, joined by `OR` (the code wraps the
join in parentheses when there is more than one field). -/
def searchPredicate (fields : List String) (op : String) : String :=
  match fields with
  | [f] => f ++ " " ++ op ++ " ?"
  | _ => "(" ++ String.intercalate " OR " (fields.map (fun f => f ++ " " ++ op ++ " ?")) ++ ")"

/-- Dynamic filter whose first condition is skipped (empty field) and whose
second condition carries `Logic = "OR"` on a field of the model. -/
def dOrFirstValid : DynamicFilter :=
  ⟨[⟨"", "=", some "x", "AND"⟩, ⟨"name", "=", some "y", "OR"⟩], "users",
    some [⟨"name", "", ""⟩], [], ""⟩

/-- Dynamic filter holding a single null-check condition whose value is the
`nil` interface, on a field the model declares. -/
def dNullCheckNilValue : DynamicFilter :=
  ⟨[⟨"name", "IS_NULL", none, "AND"⟩], "users", some [⟨"name", "", ""⟩], [], ""⟩

/-- Request with a per-page value above 100, used against `Validate`. -/
def reqPerPage101 : PaginationRequest := ⟨1, 101, "", "", "asc"⟩

/-- Condition with an operator outside every recognized spelling. -/
def condUnknownOp : FilterCondition := ⟨"age", "BETWEEN", some "30", "AND"⟩

/-- Concrete request for executor witnesses. -/
def reqPage2 : PaginationRequest := ⟨2, 10, "", "", "asc"⟩

/-- Concrete builder for executor witnesses: identity filters, no
allow-set capability. -/
def builderPosts : GoQueryBuilder := ⟨"posts", fun q => q, "id asc", ["title"], none⟩

/-- Concrete options for executor witnesses. -/
def optionsMySQL : PaginatedQueryOptions := ⟨MySQL, false, ""⟩

/-- Backend whose count query always fails. -/
def backendCountFail : Backend Nat :=
  ⟨fun _ => Except.error "boom", fun _ => Except.ok []⟩

/-- C3 counterexample: `Validate` leaves a per-page of 101 untouched, so
the claimed upper bound `perPage ≤ 100` fails after validation. -/
theorem Validate_perPage_can_exceed_100 :
    (reqPerPage101.Validate).perPage = 101 ∧
      ¬ ((reqPerPage101.Validate).perPage ≤ 100) := by
  constructor
  · rfl
  · decide

/-- Closed form of `Validate`: each field is normalized independently. -/
theorem Validate_eq (p : PaginationRequest) :
    p.Validate =
      { p with
        page := if p.page ≤ 0 then 1 else p.page
        perPage := if p.perPage ≤ 0 then 10 else p.perPage
        order := if p.order = "asc" ∨ p.order = "desc" then p.order else "asc" } := by
  obtain ⟨a, b, c, d, e⟩ := p
  simp only [PaginationRequest.Validate]
  by_cases hp : a ≤ 0 <;> by_cases hpp : b ≤ 0 <;>
    simp only [hp, hpp, if_true, if_false, ite_true, ite_false] <;>
    by_cases ho : e = "" <;> by_cases ha : e = "asc" <;> by_cases hd : e = "desc" <;>
    simp_all

/-- C3 (amended): after `Validate()`, `page ≥ 1` and `perPage ≥ 1` hold for
every starting state; `Validate` enforces no upper bound on `perPage`. -/
theorem Validate_establishes_lower_bounds (p : PaginationRequest) :
    1 ≤ (p.Validate).page ∧ 1 ≤ (p.Validate).perPage := by
  rw [Validate_eq]
  dsimp only
  constructor <;> split_ifs <;> omega

/-- C9: `Validate()` is idempotent: a second application changes nothing,
on every starting state. -/
theorem Validate_idempotent (p : PaginationRequest) :
    (p.Validate).Validate = p.Validate := by
  simp only [Validate_eq]
  simp only [PaginationRequest.mk.injEq]
  refine ⟨?_, ?_, trivial, trivial, ?_⟩
  · split_ifs <;> omega
  · split_ifs <;> omega
  · split_ifs <;> simp_all

/-- C10: an operator outside every recognized spelling (compared after
upper-casing) falls through to the default branch, which compiles the
condition to an equality predicate instead of rejecting it. -/
theorem buildCondition_default (filter : FilterCondition)
    (h : goToUpper filter.operator ∉
      ["=", "EQ", "EQUALS", "!=", "NE", "NOT_EQUALS", ">", "GT", "GREATER_THAN",
        ">=", "GTE", "GREATER_THAN_EQUALS", "<", "LT", "LESS_THAN",
        "<=", "LTE", "LESS_THAN_EQUALS", "LIKE", "CONTAINS", "ILIKE", "ICONTAINS",
        "IN", "NOT_IN", "IS_NULL", "IS_NOT_NULL"]) :
    DynamicFilter.buildCondition filter = filter.field ++ " = ?" := by
  simp only [List.mem_cons, List.not_mem_nil, or_false, not_or] at h
  unfold DynamicFilter.buildCondition
  obtain ⟨h1, h2, h3, h4, h5, h6, h7, h8, h9, h10, h11, h12, h13, h14, h15, h16,
    h17, h18, h19, h20, h21, h22, h23, h24, h25, h26⟩ := h
  simp only [h1, h2, h3, h4, h5, h6, h7, h8, h9, h10, h11, h12, h13,
    h14, h15, h16, h17, h18, h19, h20, h21, h22, h23, h24, h25, h26, or_self,
    if_false, ite_false, or_false, false_or]

/-- C10 witness: the unrecognized operator `BETWEEN` compiles to the
equality predicate. -/
theorem buildCondition_default_witness :
    goToUpper condUnknownOp.operator ∉
        ["=", "EQ", "EQUALS", "!=", "NE", "NOT_EQUALS", ">", "GT", "GREATER_THAN",
          ">=", "GTE", "GREATER_THAN_EQUALS", "<", "LT", "LESS_THAN",
          "<=", "LTE", "LESS_THAN_EQUALS", "LIKE", "CONTAINS", "ILIKE", "ICONTAINS",
          "IN", "NOT_IN", "IS_NULL", "IS_NOT_NULL"] ∧
      DynamicFilter.buildCondition condUnknownOp = condUnknownOp.field ++ " = ?" :=
  ⟨by decide, buildCondition_default condUnknownOp (by decide)⟩

/-- Exact value of the modelled float ceiling for a positive divisor: it is
the ceiling of the rational quotient. -/
theorem goCeilDiv_eq_ceil (t p : Int) (hp : 0 < p) :
    goCeilDiv t p = ⌈(t : ℚ) / (p : ℚ)⌉ := by
  unfold goCeilDiv
  rw [if_neg (by omega)]
  rw [show ((t : ℚ) / (p : ℚ)) = -(((-t : ℤ) : ℚ) / (p : ℚ)) by push_cast; ring]
  rw [Int.ceil_neg]
  rw [Int.fdiv_eq_ediv _ hp.le]
  have hpn : ((p.toNat : ℚ)) = (p : ℚ) := by exact_mod_cast Int.toNat_of_nonneg hp.le
  rw [← hpn, Rat.floor_intCast_div_natCast, Int.toNat_of_nonneg hp.le]

/-- C8: for a positive per-page and a non-negative total, the response is
the input page, per-page, total, and `maxPage = max 1 ⌈total / perPage⌉`
(so a zero total yields `maxPage = 1`). -/
theorem CalculatePagination_spec (pagination : PaginationRequest)
    (totalCount : Int) (h1 : 1 ≤ pagination.perPage) (h2 : 0 ≤ totalCount) :
    CalculatePagination pagination totalCount =
      { page := pagination.page
        perPage := pagination.perPage
        maxPage := max 1 ⌈(totalCount : ℚ) / (pagination.perPage : ℚ)⌉
        total := totalCount } := by
  have hp : (0 : Int) < pagination.perPage := by omega
  unfold CalculatePagination
  rw [goCeilDiv_eq_ceil totalCount pagination.perPage hp]
  dsimp only
  rcases lt_or_eq_of_le h2 with ht | ht
  · have hone : (1 : Int) ≤ ⌈(totalCount : ℚ) / (pagination.perPage : ℚ)⌉ := by
      have hq : (0 : ℚ) < (totalCount : ℚ) / (pagination.perPage : ℚ) := by positivity
      have := Int.ceil_pos.mpr hq
      omega
    have hmax : max (1 : Int) ⌈(totalCount : ℚ) / (pagination.perPage : ℚ)⌉ =
        ⌈(totalCount : ℚ) / (pagination.perPage : ℚ)⌉ := max_eq_right hone
    rw [if_neg (by omega), hmax]
  · subst ht
    norm_num

/-- C8 witness: 25 rows at 10 per page yield `maxPage = max 1 ⌈25/10⌉`. -/
theorem CalculatePagination_spec_witness :
    (1 : Int) ≤ reqPage2.perPage ∧ (0 : Int) ≤ (25 : Int) ∧
      CalculatePagination reqPage2 25 =
        { page := reqPage2.page
          perPage := reqPage2.perPage
          maxPage := max 1 ⌈((25 : Int) : ℚ) / ((reqPage2.perPage : Int) : ℚ)⌉
          total := 25 } :=
  ⟨by decide, by decide, CalculatePagination_spec reqPage2 25 (by decide) (by decide)⟩

/-- Projection of an if-then-else request, pushed into the branches. -/
theorem ite_page (c : Prop) [Decidable c] (t e : PaginationRequest) :
    (ite c t e).page = ite c t.page e.page := by split_ifs <;> rfl

/-- Projection of an if-then-else request, pushed into the branches. -/
theorem ite_perPage (c : Prop) [Decidable c] (t e : PaginationRequest) :
    (ite c t e).perPage = ite c t.perPage e.perPage := by split_ifs <;> rfl

/-- Projection of an if-then-else request, pushed into the branches. -/
theorem ite_search (c : Prop) [Decidable c] (t e : PaginationRequest) :
    (ite c t e).search = ite c t.search e.search := by split_ifs <;> rfl

/-- Projection of an if-then-else request, pushed into the branches. -/
theorem ite_sort (c : Prop) [Decidable c] (t e : PaginationRequest) :
    (ite c t e).sort = ite c t.sort e.sort := by split_ifs <;> rfl

/-- Projection of an if-then-else request, pushed into the branches. -/
theorem ite_order (c : Prop) [Decidable c] (t e : PaginationRequest) :
    (ite c t e).order = ite c t.order e.order := by split_ifs <;> rfl

/-- The empty parameter never parses as a number. -/
theorem atoi_empty : atoi "" = none := rfl

/-- Closed form of `BindPagination`: each field of the bound request as a
function of the raw parameters. -/
theorem BindPagination_eq (raw : RawQuery) :
    BindPagination raw =
      { page := match atoi raw.page with
          | some n => if 0 < n then n else 1
          | none => 1
        perPage := match atoi raw.per_page with
          | some n => if 0 < n ∧ n ≤ 100 then n else 10
          | none => 10
        search := raw.search
        sort := raw.sort
        order := if raw.order = "asc" ∨ raw.order = "desc" then raw.order else "asc" } := by
  rcases hA : atoi raw.page with _ | n <;> rcases hB : atoi raw.per_page with _ | m
  all_goals try (have hAne : ¬ (raw.page = "") := fun hh => by rw [hh, atoi_empty] at hA; exact Option.noConfusion hA)
  all_goals try (have hBne : ¬ (raw.per_page = "") := fun hh => by rw [hh, atoi_empty] at hB; exact Option.noConfusion hB)
  all_goals
    simp only [BindPagination, hA, hB, ne_eq, ite_self, Validate_eq,
      ite_page, ite_perPage, ite_search, ite_sort, ite_order]
  all_goals (try rw [if_pos hAne])
  all_goals (try rw [if_pos hBne])
  all_goals simp only [PaginationRequest.mk.injEq]
  all_goals refine ⟨?_, ?_, ?_, ?_, ?_⟩
  all_goals first | rfl | trivial | (split_ifs <;> first | rfl | omega | tauto)

/-- C4: for every raw input, the bound request satisfies `page ≥ 1`,
`1 ≤ perPage ≤ 100`, and `order ∈ {asc, desc}`; a non-numeric or
out-of-range `page`/`per_page` keeps the defaults 1 and 10, and `order` is
taken from the input only when it is exactly `asc` or `desc`. -/
theorem BindPagination_spec (raw : RawQuery) :
    (1 ≤ (BindPagination raw).page ∧ 1 ≤ (BindPagination raw).perPage ∧
        (BindPagination raw).perPage ≤ 100 ∧
        ((BindPagination raw).order = "asc" ∨ (BindPagination raw).order = "desc")) ∧
      (BindPagination raw).page =
        (match atoi raw.page with
          | some n => if 0 < n then n else 1
          | none => 1) ∧
      (BindPagination raw).perPage =
        (match atoi raw.per_page with
          | some n => if 0 < n ∧ n ≤ 100 then n else 10
          | none => 10) ∧
      (BindPagination raw).order =
        (if raw.order = "asc" ∨ raw.order = "desc" then raw.order else "asc") := by
  rw [BindPagination_eq]
  refine ⟨⟨?_, ?_, ?_, ?_⟩, rfl, rfl, rfl⟩
  · rcases h : atoi raw.page with _ | n <;> simp only [h] <;> (try split_ifs) <;> omega
  · rcases h : atoi raw.per_page with _ | n <;> simp only [h] <;> (try split_ifs) <;> omega
  · rcases h : atoi raw.per_page with _ | n <;> simp only [h] <;> (try split_ifs) <;> omega
  · split_ifs <;> tauto

/-- Declarative form of the `ApplyFilters` loop from any starting index:
the query grows by exactly the clauses the indexed conditions contribute. -/
theorem applyFiltersFrom_spec (d : DynamicFilter) (fs : List FilterCondition) :
    ∀ (i : Nat) (q : Query),
      d.applyFiltersFrom i fs q =
        { q with whereClauses := q.whereClauses ++
            (List.enumFrom i fs).filterMap (fun p => contributedClause d p.1 p.2) } := by
  induction fs with
  | nil => intro i q; simp [DynamicFilter.applyFiltersFrom, List.enumFrom]
  | cons f rest ih =>
    intro i q
    rw [DynamicFilter.applyFiltersFrom, ih]
    by_cases h1 : f.field = "" ∨ f.value = none
    · simp [h1, contributedClause, List.enumFrom_cons]
    · by_cases h2 : d.isValidField f.field = true
      · by_cases h3 : DynamicFilter.buildCondition f = ""
        · simp [h1, h2, h3, contributedClause, List.enumFrom_cons]
        · by_cases h4 : i = 0
          · simp [h1, h2, h3, h4, contributedClause, List.enumFrom_cons,
              Query.whereAnd, Query.whereOr]
          · by_cases h5 : goToUpper f.logic = "OR"
            · simp [h1, h2, h3, h4, h5, contributedClause, List.enumFrom_cons,
                Query.whereAnd, Query.whereOr]
            · simp [h1, h2, h3, h4, h5, contributedClause, List.enumFrom_cons,
                Query.whereAnd, Query.whereOr]
      · simp [h1, h2, contributedClause, List.enumFrom_cons]

/-- C1 counterexample: in `dOrFirstValid` the condition at index 0 is
skipped (empty field), so the first condition that is not skipped and
compiles to a non-empty predicate is the one at index 1; the loop honors
its `Logic = "OR"` and OR-combines it — the single resulting clause has
`isOr = true`, refuting "the first valid condition is always combined with
AND semantics". -/
theorem ApplyFilters_or_combines_first_valid :
    (dOrFirstValid.ApplyFilters Query.empty).whereClauses =
      [⟨true, "name = ?", [some "y"]⟩] := by decide

/-- C1 (amended): the combinator of a contributed clause depends on the
condition's position index in `Filters`, not on its position among the
valid conditions: `ApplyFilters` appends exactly the clauses of
`contributedClause` (whose `isOr` field is false at index 0 whatever the
`Logic`, and `Logic = OR`, case-insensitively, at later indices), and the
`Logic` of the condition at index 0 never affects the result. -/
theorem ApplyFilters_combination_spec :
    (∀ (d : DynamicFilter) (q : Query),
        d.ApplyFilters q =
          { q with whereClauses := q.whereClauses ++
              d.filters.enum.filterMap (fun p => contributedClause d p.1 p.2) })
    ∧ (∀ (d : DynamicFilter) (q : Query) (f : FilterCondition)
        (rest : List FilterCondition) (l l' : String),
        DynamicFilter.ApplyFilters { d with filters := { f with logic := l } :: rest } q =
          DynamicFilter.ApplyFilters { d with filters := { f with logic := l' } :: rest } q) := by
  constructor
  · intro d q
    rw [DynamicFilter.ApplyFilters, applyFiltersFrom_spec]
    rfl
  · intro d q f rest l l'
    rw [DynamicFilter.ApplyFilters, DynamicFilter.ApplyFilters,
      applyFiltersFrom_spec, applyFiltersFrom_spec]
    simp only [List.enumFrom_cons, List.filterMap_cons, contributedClause,
      DynamicFilter.isValidField, DynamicFilter.buildCondition]
    rfl

/-- C2 counterexample: the condition `name IS_NULL` with a `nil` value on a
declared model field is skipped by `ApplyFilters` — the query comes back
unchanged — refuting "a condition with a null-check operator is not skipped
merely because its value is nil". -/
theorem ApplyFilters_skips_null_check_nil :
    dNullCheckNilValue.ApplyFilters Query.empty = Query.empty := by decide

/-- C2 (amended): a condition with an empty field or a `nil` value
contributes no predicate whatever its operator — including the null-check
operators IS_NULL / IS_NOT_NULL — and `ApplyFilters` is a total function
(appending exactly the contributed clauses), so a skipped condition never
causes an error. -/
theorem ApplyFilters_skips_empty_field_or_nil_value :
    (∀ (d : DynamicFilter) (i : Nat) (f : FilterCondition),
        f.field = "" ∨ f.value = none → contributedClause d i f = none)
    ∧ (∀ (d : DynamicFilter) (q : Query),
        d.ApplyFilters q =
          { q with whereClauses := q.whereClauses ++
              d.filters.enum.filterMap (fun p => contributedClause d p.1 p.2) }) := by
  constructor
  · intro d i f h
    rw [contributedClause, if_pos h]
  · intro d q
    rw [DynamicFilter.ApplyFilters, applyFiltersFrom_spec]
    rfl

/-- C2 witness: the skip rule applied to the concrete `name IS_NULL`
condition with a `nil` value. -/
theorem ApplyFilters_skips_empty_field_or_nil_value_witness :
    contributedClause dNullCheckNilValue 0 ⟨"name", "IS_NULL", none, "AND"⟩ = none :=
  ApplyFilters_skips_empty_field_or_nil_value.1 dNullCheckNilValue 0
    ⟨"name", "IS_NULL", none, "AND"⟩ (Or.inr rfl)

/-- C5: auto search leaves the query unchanged when the term is empty or no
search fields are declared; otherwise it appends exactly one AND-combined
predicate matching every declared field joined by OR, each against the
pattern `%term%`, with `ILIKE` exactly for the PostgreSQL dialect and
`LIKE` for every other dialect. -/
theorem applyAutoSearch_spec :
    (∀ (q : Query) (term : String) (fields : List String) (dialect : DatabaseDialect),
        term = "" ∨ fields = [] → applyAutoSearch q term fields dialect = q)
    ∧ (∀ (q : Query) (term : String) (fields : List String) (dialect : DatabaseDialect),
        term ≠ "" → fields ≠ [] →
        applyAutoSearch q term fields dialect =
          { q with whereClauses := q.whereClauses ++
              [⟨false, searchPredicate fields (getSearchOperator dialect),
                fields.map (fun _ => some ("%" ++ term ++ "%"))⟩] })
    ∧ (∀ dialect : DatabaseDialect,
        getSearchOperator dialect = if dialect = PostgreSQL then "ILIKE" else "LIKE") := by
  refine ⟨?_, ?_, ?_⟩
  · intro q term fields dialect h
    rcases h with h | h <;> simp [applyAutoSearch, h]
  · intro q term fields dialect ht hf
    rw [applyAutoSearch, if_neg (by simp [List.length_eq_zero, ht, hf])]
    rcases fields with _ | ⟨f, _ | ⟨g, rest⟩⟩
    · exact absurd rfl hf
    · simp [searchPredicate, Query.whereAnd]
    · simp [searchPredicate, Query.whereAnd]
  · intro dialect
    rw [getSearchOperator]
    split_ifs <;> rfl

/-- C5 witness: two search fields, term `go`, PostgreSQL dialect. -/
theorem applyAutoSearch_spec_witness :
    applyAutoSearch Query.empty "go" ["title", "body"] PostgreSQL =
      { Query.empty with whereClauses := Query.empty.whereClauses ++
          [⟨false, searchPredicate ["title", "body"] (getSearchOperator PostgreSQL),
            (["title", "body"] : List String).map (fun _ => some ("%" ++ "go" ++ "%"))⟩] } :=
  applyAutoSearch_spec.2.1 Query.empty "go" ["title", "body"] PostgreSQL
    (by decide) (by decide)

/-- C6: a failing count query makes the executor return no rows, a zero
count, and the wrapped count-phase error, without ever issuing the data
query; a failing data query likewise returns no partial rows, a zero
count, and the wrapped fetch-phase error. -/
theorem PaginatedQueryWithOptions_failure_spec :
    (∀ (T : Type) (backend : Backend T) (db : Query) (builder : GoQueryBuilder)
        (pagination : PaginationRequest) (includes : List String)
        (options : PaginatedQueryOptions) (e : String),
        backend.count (buildCountQuery db builder options) = Except.error e →
        PaginatedQueryWithOptions T backend db builder pagination includes options =
          (([], 0, some ("failed to count records: " ++ e)), [Phase.count]))
    ∧ (∀ (T : Type) (backend : Backend T) (db : Query) (builder : GoQueryBuilder)
        (pagination : PaginationRequest) (includes : List String)
        (options : PaginatedQueryOptions) (n : Int) (e : String),
        backend.count (buildCountQuery db builder options) = Except.ok n →
        backend.find (buildDataQuery db builder pagination includes options) =
          Except.error e →
        PaginatedQueryWithOptions T backend db builder pagination includes options =
          (([], 0, some ("failed to fetch records: " ++ e)), [Phase.count, Phase.fetch])) := by
  constructor
  · intro T backend db builder pagination includes options e h
    simp [PaginatedQueryWithOptions, h]
  · intro T backend db builder pagination includes options n e hc hf
    simp [PaginatedQueryWithOptions, hc, hf]

/-- C6 witness: a backend whose count always fails with `boom`. -/
theorem PaginatedQueryWithOptions_failure_witness :
    PaginatedQueryWithOptions Nat backendCountFail Query.empty builderPosts
        reqPage2 [] optionsMySQL =
      (([], 0, some ("failed to count records: " ++ "boom")), [Phase.count]) :=
  PaginatedQueryWithOptions_failure_spec.1 Nat backendCountFail Query.empty
    builderPosts reqPage2 [] optionsMySQL "boom" rfl

/-- Auto search never touches the ORDER BY clauses. -/
theorem orderClauses_applyAutoSearch (q : Query) (term : String)
    (fields : List String) (dialect : DatabaseDialect) :
    (applyAutoSearch q term fields dialect).orderClauses = q.orderClauses := by
  rw [applyAutoSearch]
  split_ifs
  · rfl
  · rcases fields with _ | ⟨f, _ | ⟨g, rest⟩⟩ <;> rfl

/-- Preloading relations never touches the ORDER BY clauses. -/
theorem orderClauses_foldl_preload (incs : List String) :
    ∀ q : Query, (incs.foldl (fun q inc => q.preloadQ inc) q).orderClauses =
      q.orderClauses := by
  induction incs with
  | nil => intro q; rfl
  | cons inc rest ih => intro q; rw [List.foldl_cons, ih]; rfl

/-- The character allow-list, phrased through the library's ASCII
letter/digit tests. -/
theorem isAllowedIdentChar_iff (c : Char) :
    isAllowedIdentChar c = true ↔
      (c.isAlpha = true ∨ c.isDigit = true ∨ c = '_' ∨ c = '.') := by
  simp only [isAllowedIdentChar, Char.isAlpha, Char.isUpper, Char.isLower, Char.isDigit,
    Char.le_def, ge_iff_le, Bool.and_eq_true, Bool.or_eq_true, decide_eq_true_eq]
  tauto

/-- C7: the sort-field validator accepts a string exactly when it is
non-empty and made only of ASCII letters, digits, underscore, or dot; it
accepts `created_at` and `user.name`; and whenever the caller-supplied sort
field is rejected, the executor's data query carries the builder's default
sort as its appended ORDER BY clause (validation never produces an
error — the query is still built and run). -/
theorem isValidSortField_spec :
    (∀ s : String, isValidSortField s = true ↔
        s ≠ "" ∧ ∀ c ∈ s.data,
          c.isAlpha = true ∨ c.isDigit = true ∨ c = '_' ∨ c = '.')
    ∧ isValidSortField "created_at" = true
    ∧ isValidSortField "user.name" = true
    ∧ (∀ (db : Query) (builder : GoQueryBuilder) (pagination : PaginationRequest)
        (includes : List String) (options : PaginatedQueryOptions),
        isValidSortField pagination.sort = false →
        (buildDataQuery db builder pagination includes options).orderClauses =
          (builder.applyFilters (db.tableQ builder.tableName)).orderClauses ++
            [builder.defaultSort]) := by
  refine ⟨?_, by decide, by decide, ?_⟩
  · intro s
    rw [isValidSortField]
    simp only [decide_eq_true_eq, List.all_eq_true]
    constructor
    · rintro ⟨hall, hlen⟩
      refine ⟨fun hs => by rw [hs] at hlen; simp at hlen,
        fun c hc => (isAllowedIdentChar_iff c).mp (hall c hc)⟩
    · rintro ⟨hne, hall⟩
      refine ⟨fun c hc => (isAllowedIdentChar_iff c).mpr (hall c hc), ?_⟩
      rcases hs : s.data with _ | ⟨c, cs⟩
      · exact absurd (String.ext hs) hne
      · simp [hs]
  · intro db builder pagination includes options h
    rw [buildDataQuery, orderClauses_foldl_preload]
    simp only [h, Bool.false_eq_true, if_false, ite_false, ite_self]
    simp only [Query.offsetQ, Query.limitQ, Query.orderQ]
    split_ifs <;> simp [orderClauses_applyAutoSearch, Query.whereAnd]

/-- C7 witness: the injection attempt `a;DROP TABLE x` is rejected and the
data query falls back to the builder's default sort. -/
theorem isValidSortField_spec_witness :
    (buildDataQuery Query.empty builderPosts ⟨1, 10, "", "a;DROP TABLE x", "asc"⟩
        [] optionsMySQL).orderClauses =
      (builderPosts.applyFilters
          (Query.empty.tableQ builderPosts.tableName)).orderClauses ++
        [builderPosts.defaultSort] :=
  isValidSortField_spec.2.2.2 Query.empty builderPosts
    ⟨1, 10, "", "a;DROP TABLE x", "asc"⟩ [] optionsMySQL (by decide)
